import Mathlib

/-!
Verification development for the pywebcopy asset mirroring engine.

This file gives a shallow embedding of `src/pywebcopy/core.py` and
`src/pywebcopy/elements.py` and proves theorems about it.

Conventions of the embedding:
* Python byte strings and text strings are both modelled as `String`
  (ASCII fragment); character-level helpers work on `List Char` so that
  every definition evaluates inside the kernel.
* A raising Python function is modelled as returning `Except PyErr`;
  caught exception classes appear as constructors of `SessionResult`
  (the possible outcomes of `SESSION.get`).
* The filesystem is an association list from path to content; directory
  creation and the raw byte writes are modelled as always succeeding
  (their failure branches in the source only log and return None, which
  no claim under scrutiny depends on).
* Values that the repository takes from collaborators missing from
  `src/` (pywebcopy.urls, pywebcopy.globals, the stdlib) are modelled
  from the spec; each such definition carries a doc comment starting
  with `Modelled from the spec:`.
-/

deriving instance DecidableEq for Except

namespace PyWebCopy

/-! ### Character and string helpers (ASCII models of Python str methods) -/

/-- Suffix of the list after the last occurrence of `c`, if any
(character-level core of Python `rsplit(c, 1)[1]`). -/
def afterLast (c : Char) : List Char → Option (List Char)
  | [] => none
  | x :: rest =>
    match afterLast c rest with
    | some r => some r
    | none => if x = c then some rest else none

/-- Splits at the last occurrence of `c`: returns the characters before
it and after it, if `c` occurs at all. -/
def beforeAfterLast (c : Char) : List Char → Option (List Char × List Char)
  | [] => none
  | x :: rest =>
    match beforeAfterLast c rest with
    | some pr => some (x :: pr.1, pr.2)
    | none => if x = c then some ([], rest) else none

/-- ASCII model of Python `str.lower`. -/
def strLower (s : String) : String := String.mk (s.data.map Char.toLower)

/-- Whitespace recogniser for the ASCII model of Python `str.strip`. -/
def isSpaceChar (c : Char) : Bool := c == ' ' || c == '\t' || c == '\n' || c == '\r'

/-- Characters with surrounding whitespace removed. -/
def trimChars (cs : List Char) : List Char :=
  ((cs.dropWhile isSpaceChar).reverse.dropWhile isSpaceChar).reverse

/-- ASCII model of Python `str.strip`. -/
def strTrim (s : String) : String := String.mk (trimChars s.data)

/-- Model of Python slicing `s[:n]`. -/
def strTake (n : Nat) (s : String) : String := String.mk (s.data.take n)

/-- Model of Python `str.endswith`. -/
def strEndsWith (suffix s : String) : Bool := List.isSuffixOf suffix.data s.data

/-- Model of `os.path.splitext(p)[1]` (POSIX): the extension starting at
the last dot of the final path segment, empty when that segment has no
dot or only leading dots. -/
def splitextExt (p : String) : String :=
  match beforeAfterLast '.' ((afterLast '/' p.data).getD p.data) with
  | none => ""
  | some pr => if pr.1.all (fun ch => ch == '.') then "" else String.mk ('.' :: pr.2)

/-- Model of `'.' + location.rsplit('.', 1)[1].lower().strip()` from
`core.new_file`; `none` models the `IndexError` raised when `location`
contains no dot. -/
def newFileExt (location : String) : Option String :=
  (afterLast '.' location.data).map (fun t2 => "." ++ strTrim (strLower (String.mk t2)))

/-- Model of `req.headers.get('content-type', '').split(';', 1)[0]`. -/
def beforeSemicolon (s : String) : String := String.mk (s.data.takeWhile (fun c => c != ';'))

/-! ### Data model: responses, request outcomes, configuration, errors -/

/-- Python exception values observable in the embedded functions. -/
inductive PyErr where
  | assertionError (msg : String)
  | attributeError (msg : String)
  | indexError
  | otherError
deriving DecidableEq, Repr

/-- The fields of a `requests.Response` the engine reads.  `isDummy`
models the dynamically attached `is_dummy` attribute (absent, i.e.
`false`, on genuine responses). -/
structure Resp where
  body : String
  statusCode : Nat
  contentLength : Nat
  contentType : String
  isDummy : Bool
  reason : String
deriving DecidableEq, Repr

/-- `requests.Response.ok` (also its truth value: `Response.__bool__`
returns `self.ok`): status code below 400. -/
def Resp.ok (r : Resp) : Bool := decide (r.statusCode < 400)

/-- Outcome of the `SESSION.get(url, ...)` call inside `core.get`: a
returned response, a raised `HTTPError` (carrying `err.response`, which
may be `None`), a raised `ConnectionError`, or any other raised
exception (e.g. a bare `Timeout`), which `core.get` does not catch. -/
inductive SessionResult where
  | success (r : Resp)
  | raiseHTTPError (response : Option Resp)
  | raiseConnectionError
  | raiseOther
deriving DecidableEq, Repr

/-- The configuration keys the engine reads (`pywebcopy.configs.config`). -/
structure Config where
  allowed_file_ext : List String
  over_write : Bool
  project_folder : String
deriving DecidableEq, Repr

/-! ### core.get and the dummy response -/

/-- Embeds `core._dummy_resp` (core.py lines 75-85): the synthetic
placeholder response with fixed plain-text payload, faked 200 status and
the `is_dummy` mark. -/
def dummy_resp : Resp :=
  { body := "This File could not be downloaded because the server returned an error response!"
  , statusCode := 200
  , contentLength := 0
  , contentType := ""
  , isDummy := true
  , reason := "Failed to access" }

/-- Embeds `core.get` (core.py lines 88-125).  The `robotsAllowed`
argument is the verdict of the robots.txt collaborator available to the
function (`RobotsTxtParser` is imported by core.py); per the source the
body never consults it — the robots check exists only as a comment at
lines 99-100.  `downloadSize` threads `config['download_size']`.  The
`try` block catches exactly `HTTPError` and `ConnectionError`; on
`HTTPError` the source runs `resp = err.response` and replaces it by the
dummy when `not resp`, where a `None` response and a response with a
non-ok status are both falsy (`Response.__bool__` is `self.ok`). -/
def get (robotsAllowed : Bool) (downloadSize : Nat) (s : SessionResult) :
    Except PyErr (Resp × Nat) :=
  match s with
  | SessionResult.success r => Except.ok (r, downloadSize + r.contentLength)
  | SessionResult.raiseHTTPError respOpt =>
    match respOpt with
    | some r =>
      if r.ok = true then Except.ok (r, downloadSize)
      else Except.ok (dummy_resp, downloadSize)
    | none => Except.ok (dummy_resp, downloadSize)
  | SessionResult.raiseConnectionError => Except.ok (dummy_resp, downloadSize)
  | SessionResult.raiseOther => Except.error PyErr.otherError

/-! ### Watermark -/

/-- Extensions that receive the markup-comment watermark
(core.py line 135). -/
def markupExts : List String := [".html", ".htm", ".xhtml", ".aspx", ".asp", ".php"]

/-- Extensions that receive the block-comment watermark
(core.py line 138). -/
def blockExts : List String := [".css", ".js", ".xml"]

/-- Modelled from the spec: the `MARK` provenance template lives in
`pywebcopy.globals`, which is not under `src/`; per the spec the
watermark records the tool identity, the original source, and the
generation timestamp, wrapped in the given comment delimiters. -/
def MARK_format (commentStart version path timestamp commentEnd : String) : String :=
  commentStart ++ " pywebcopy " ++ version ++ " mirrored " ++ path ++
    " at " ++ timestamp ++ " " ++ commentEnd

/-- Embeds `core._watermark` (core.py lines 128-144): keyed on the
extension of its `file_path` argument, lower-cased; html-like
extensions get markup comment delimiters, css/js/xml get block comment
delimiters, everything else gets empty bytes.  `version` models the
imported `VERSION`, `timestamp` models `datetime.utcnow()`. -/
def watermark (version timestamp filePath : String) : String :=
  if strLower (splitextExt filePath) ∈ markupExts then
    MARK_format "<!--!" version filePath timestamp "-->"
  else if strLower (splitextExt filePath) ∈ blockExts then
    MARK_format "/*!" version filePath timestamp "*/"
  else ""

/-! ### Extension policy -/

/-- Embeds `core.is_allowed` (core.py lines 147-153), the pure lookup
underneath the `lru_cache` decorator: falsy (empty) extensions are
refused, otherwise membership of the stripped lower-cased extension in
`config['allowed_file_ext']` decides. -/
def is_allowed (cfg : Config) (ext : String) : Bool :=
  if ext = "" then false
  else if strLower (strTrim ext) ∈ cfg.allowed_file_ext then true
  else false

/-- Cache state of the `functools.lru_cache` wrapper around
`is_allowed`. -/
abbrev LruCache := List (String × Bool)

/-- The `maxsize=100` bound of the `lru_cache` decorator on
`is_allowed` (core.py line 147). -/
def lruMaxsize : Nat := 100

/-- Modelled from the spec: the stdlib `functools.lru_cache(maxsize=100)`
decorator applied to `is_allowed` — a memo table keyed by the extension
string, most recently used entry first, bounded by `lruMaxsize`. -/
def cached_is_allowed (cfg : Config) (c : LruCache) (k : String) : Bool × LruCache :=
  match c.find? (fun e => e.1 == k) with
  | some e => (e.2, ((k, e.2) :: c.filter (fun e2 => e2.1 != k)).take lruMaxsize)
  | none => (is_allowed cfg k, ((k, is_allowed cfg k) :: c).take lruMaxsize)

/-- Cache coherence: every memoised entry agrees with the pure
function. -/
def Coherent (cfg : Config) (c : LruCache) : Prop :=
  ∀ e ∈ c, e.2 = is_allowed cfg e.1

/-! ### Filesystem model -/

/-- The on-disk state: an association list from path to file content. -/
abbrev FS := List (String × String)

/-- Model of `os.path.exists`. -/
def fileExists (fs : FS) (p : String) : Bool := fs.any (fun e => e.1 == p)

/-- Content of the file at `p`, if present. -/
def fsLookup (fs : FS) (p : String) : Option String :=
  (fs.find? (fun e => e.1 == p)).map (fun e => e.2)

/-- Model of `open(p, 'wb')` followed by writing `c`: replaces any
previous content at `p`. -/
def fsWrite (fs : FS) (p c : String) : FS :=
  (p, c) :: fs.filter (fun e => e.1 != p)

/-- Model of `os.remove`. -/
def fsRemove (fs : FS) (p : String) : FS := fs.filter (fun e => e.1 != p)

/-! ### core.new_file -/

/-- Tail of `core.new_file` after the overwrite handling (core.py lines
198-242): fetch the content from `content_url` when no (truthy) byte
content was supplied, bail out on a not-ok response, then write the
bytes followed by the watermark keyed on `content_url or location`.
Directory creation and the byte write are modelled as succeeding. -/
def new_file_write (cfg : Config) (fs1 : FS) (robots : Bool) (o : SessionResult)
    (v t location curl : String) (content : Option String) :
    Except PyErr (Option String) × FS :=
  if content.getD "" = "" then
    match get robots 0 o with
    | Except.error e => (Except.error e, fs1)
    | Except.ok (req, _) =>
      if req.ok = false then (Except.ok none, fs1)
      else (Except.ok (some location),
            fsWrite fs1 location
              (req.body ++ watermark v t (if curl = "" then location else curl)))
  else
    (Except.ok (some location),
     fsWrite fs1 location
       (content.getD "" ++ watermark v t (if curl = "" then location else curl)))

/-- Embeds `core.new_file` (core.py lines 156-242).  In order: the
`assert` statements (an empty string is falsy; `isinstance(None, str)`
is false, so a missing `content_url` always trips the fourth assert),
the extension parse (`IndexError` when `location` has no dot), the
`is_allowed` gate, the exists/overwrite policy, then the fetch-and-write
tail `new_file_write`.  `Except.ok none` models `return None`. -/
def new_file (cfg : Config) (fs : FS) (robots : Bool) (o : SessionResult)
    (v t location : String) (content_url content : Option String) :
    Except PyErr (Option String) × FS :=
  if location = "" then
    (Except.error (PyErr.assertionError "Download location needed to be specified!"), fs)
  else if content.getD "" = "" ∧ content_url.getD "" = "" then
    (Except.error (PyErr.assertionError "Either file content or file url is needed!"), fs)
  else
    match content_url with
    | none => (Except.error (PyErr.assertionError "File url must be a string!"), fs)
    | some curl =>
      match newFileExt location with
      | none => (Except.error PyErr.indexError, fs)
      | some ext =>
        if is_allowed cfg ext = false then (Except.ok none, fs)
        else if fileExists fs location = true ∧ cfg.over_write = false then
          (Except.ok (some location), fs)
        else
          new_file_write cfg (if fileExists fs location = true then fsRemove fs location else fs)
            robots o v t location curl content

/-! ### elements.FileMixin.download_file and write_file -/

/-- Embeds `elements.FileMixin.download_file` (elements.py lines
70-140).  `guessExts` models the stdlib `mimetypes.guess_all_extensions`
table; `dfe` models `self.default_fileext` with `""` for a falsy value.
The source line `file_exts.extends(['.' + self.default_fileext])` calls
a method that Python lists do not have, so whenever `default_fileext` is
truthy the fallback raises `AttributeError` instead of extending the
candidate list; the error propagates out of the function (no enclosing
`try`). -/
def download_file (cfg : Config) (fs : FS) (robots : Bool) (o : SessionResult)
    (guessExts : String → List String) (v t url fp dfe : String) :
    Except PyErr Unit × FS :=
  if fp = "" then
    (Except.error (PyErr.assertionError "Download location needed to be specified!"), fs)
  else if fileExists fs fp = true ∧ cfg.over_write = false then (Except.ok (), fs)
  else
    match get robots 0 o with
    | Except.error e => (Except.error e, fs)
    | Except.ok (req, _) =>
      if req.ok = false then (Except.ok (), fs)
      else if is_allowed cfg (splitextExt fp) = true then
        (Except.ok (), fsWrite fs fp (req.body ++ watermark v t url))
      else if dfe = "" then
        match (guessExts (beforeSemicolon req.contentType)).find?
            (fun e2 => is_allowed cfg e2) with
        | some _ => (Except.ok (), fsWrite fs fp (req.body ++ watermark v t url))
        | none => (Except.ok (), fs)
      else (Except.error (PyErr.attributeError "list object has no attribute extends"), fs)

/-- Embeds `elements.FileMixin.write_file` (elements.py lines 142-196):
same exists/overwrite and extension gates as `download_file`, but the
content is supplied by the caller; the watermark is keyed on the
element's `url`. -/
def write_file (cfg : Config) (fs : FS) (v t url fp contents : String) :
    Except PyErr Unit × FS :=
  if fp = "" then
    (Except.error (PyErr.assertionError "Download location needed to be specified!"), fs)
  else if fileExists fs fp = true ∧ cfg.over_write = false then (Except.ok (), fs)
  else if is_allowed cfg (splitextExt fp) = false then (Except.ok (), fs)
  else (Except.ok (), fsWrite fs fp (contents ++ watermark v t url))

/-! ### Path mapping collaborators (pywebcopy.urls is not under src/) -/

/-- Characters after the first `://`, if present. -/
def schemeSplit : List Char → Option (List Char)
  | [] => none
  | ':' :: '/' :: '/' :: rest => some rest
  | _ :: rest => schemeSplit rest

/-- Whether the URL carries an explicit scheme. -/
def hasScheme (u : String) : Bool := (schemeSplit u.data).isSome

/-- The URL with its `scheme://` prefix removed. -/
def stripScheme (u : String) : String :=
  match schemeSplit u.data with
  | some r => String.mk r
  | none => u

/-- Characters before the last `/` (the directory part). -/
def dirOf (p : String) : String :=
  match beforeAfterLast '/' p.data with
  | some pr => String.mk pr.1
  | none => ""

/-- Modelled from the spec: URL resolution against the referencing
document (`URLTransformer` in pywebcopy.urls, not under src/) — an
absolute URL is kept, a relative one is resolved against the base
URL's directory. -/
def resolveUrl (baseUrl u : String) : String :=
  if hasScheme u then u else dirOf baseUrl ++ "/" ++ u

/-- Modelled from the spec: the Path Mapper (`URLTransformer.file_path`
in pywebcopy.urls, not under src/) — deterministically places the
resolved URL's host/path hierarchy under the destination root. -/
def file_path_map (u baseUrl basePath : String) : String :=
  basePath ++ "/" ++ stripScheme (resolveUrl baseUrl u)

/-- Path split on `/`. -/
def splitSlash : List Char → List (List Char)
  | [] => [[]]
  | '/' :: rest => [] :: splitSlash rest
  | c :: rest =>
    match splitSlash rest with
    | [] => [[c]]
    | g :: gs => (c :: g) :: gs

/-- Drops the common leading segments of two segment lists. -/
def dropCommonDirs : List (List Char) → List (List Char) →
    List (List Char) × List (List Char)
  | x :: xs, y :: ys => if x = y then dropCommonDirs xs ys else (x :: xs, y :: ys)
  | xs, ys => (xs, ys)

/-- Joins path segments with a separator. -/
def joinWith (sep : String) : List String → String
  | [] => ""
  | [x] => x
  | x :: xs => x ++ sep ++ joinWith sep xs

/-- Modelled from the spec: `relate` in pywebcopy.urls (not under src/)
— the Path Mapper's relative-path computation: the path of `target`
relative to the directory containing `base`, using `..` segments for
the divergent part and a leading `./` inside the same directory. -/
def relate (target base : String) : String :=
  match dropCommonDirs (splitSlash target.data) ((splitSlash base.data).dropLast) with
  | (tparts, bparts) =>
    if bparts.isEmpty then "./" ++ joinWith "/" (tparts.map (fun cs => String.mk cs))
    else joinWith "/" (List.replicate bparts.length ".." ++
                        tparts.map (fun cs => String.mk cs))

/-- Hex digit for percent encoding. -/
def hexDigit (n : Nat) : Char :=
  if n < 10 then Char.ofNat (48 + n) else Char.ofNat (55 + n)

/-- Characters that `urllib.parse.quote` leaves as-is (with the default
`safe='/'`). -/
def isSafeChar (c : Char) : Bool :=
  (('a' ≤ c && c ≤ 'z') || ('A' ≤ c && c ≤ 'Z') || ('0' ≤ c && c ≤ '9') ||
    c == '_' || c == '.' || c == '-' || c == '~' || c == '/')

/-- Percent encoding of one (ASCII) character. -/
def percentEncode (c : Char) : List Char :=
  ['%', hexDigit (c.toNat / 16 % 16), hexDigit (c.toNat % 16)]

/-- Model of the stdlib `urllib.request.pathname2url` on POSIX: quoting
of unsafe characters, identity on unreserved characters and `/`. -/
def pathname2url (s : String) : String :=
  String.mk (s.data.foldr (fun c acc => (if isSafeChar c then [c] else percentEncode c) ++ acc) [])

/-! ### elements.LinkTag: the stylesheet resolver -/

/-- A child asset minted by `LinkTag.repl`: its URL, whether a nested
`LinkTag` (stylesheet) or a plain `TagBase` was constructed, and its
eagerly computed file path.  The child is started as a thread; its
download has not happened when `repl` returns. -/
structure SpawnedChild where
  url : String
  isCss : Bool
  file_path : String
deriving DecidableEq, Repr

/-- Embeds `elements.LinkTag.repl` (elements.py lines 255-295).  The
matched reference `u` is returned verbatim when its first four bytes
equal `data` (`url[:4] == b'data'`); otherwise a child element is
constructed (a `LinkTag` when the URL ends in `.css`, else `TagBase`),
its thread is started — without joining — and the match is replaced by
`url(<relative path>)` computed from the child's and the parent's file
paths, which exist as soon as the child is constructed. -/
def repl (cfg : Config) (bp su sfp u : String) : String × Option SpawnedChild :=
  if strTake 4 u = "data" then (u, none)
  else
    ("url(" ++
       pathname2url (relate (file_path_map u su (if bp = "" then cfg.project_folder else bp))
         sfp) ++ ")",
     some { url := u
          , isCss := strEndsWith ".css" u
          , file_path := file_path_map u su (if bp = "" then cfg.project_folder else bp) })

/-- Strips one leading quote character. -/
def dropIfQuote (cs : List Char) : List Char :=
  match cs with
  | c :: rest => if c = '"' ∨ c = Char.ofNat 39 then rest else cs
  | [] => []

/-- Strips one matching pair of surrounding quotes. -/
def stripQuotes (s : String) : String :=
  String.mk ((dropIfQuote ((dropIfQuote s.data).reverse)).reverse)

/-- Modelled from the spec: the `CSS_URLS_RE` scan from
pywebcopy.globals (not under src/) — a best-effort textual pass that
finds `url(...)` constructs and replaces each whole match by the
replacement function's output on the (unquoted) argument.  The fuel
argument bounds the recursion; one unit is spent per step and at least
one character is consumed per step, so fuel equal to the input length
is exact. -/
def cssUrlSubstF (f : String → String × Option SpawnedChild) :
    Nat → List Char → String × List SpawnedChild
  | _, [] => ("", [])
  | 0, cs => (String.mk cs, [])
  | Nat.succ fuel, 'u' :: 'r' :: 'l' :: '(' :: rest =>
    let arg := rest.takeWhile (fun c => c != ')')
    let rest2 := (rest.dropWhile (fun c => c != ')')).drop 1
    let fr := f (stripQuotes (String.mk arg))
    let tail := cssUrlSubstF f fuel rest2
    (fr.1 ++ tail.1, fr.2.toList ++ tail.2)
  | Nat.succ fuel, c :: rest =>
    let tail := cssUrlSubstF f fuel rest
    (String.mk [c] ++ tail.1, tail.2)

/-- Modelled from the spec: the `CSS_IMPORTS_RE` scan from
pywebcopy.globals (not under src/) — a best-effort textual pass over
quoted `@import "..."` statements, each whole match replaced by the
replacement function's output on the argument. -/
def cssImportSubstF (f : String → String × Option SpawnedChild) :
    Nat → List Char → String × List SpawnedChild
  | _, [] => ("", [])
  | 0, cs => (String.mk cs, [])
  | Nat.succ fuel, '@' :: 'i' :: 'm' :: 'p' :: 'o' :: 'r' :: 't' :: ' ' :: '"' :: rest =>
    let arg := rest.takeWhile (fun c => c != '"')
    let rest2 := (rest.dropWhile (fun c => c != '"')).drop 1
    let fr := f (String.mk arg)
    let tail := cssImportSubstF f fuel rest2
    (fr.1 ++ tail.1, fr.2.toList ++ tail.2)
  | Nat.succ fuel, c :: rest =>
    let tail := cssImportSubstF f fuel rest
    (String.mk [c] ++ tail.1, tail.2)

/-- Embeds `elements.LinkTag.run` (elements.py lines 321-360) for one
scheduled outcome of the element's own request: for a non-css file name
the inherited `download_file` runs first (and the method continues);
then the element's own URL is fetched, a not-ok response aborts, the two
substitution passes rewrite the content — starting child threads as a
side effect, collected in the returned list — and the rewritten bytes go
to `write_file`.  The children have only been started: their downloads
are not part of this function's effect. -/
def linkTagRun (cfg : Config) (fs : FS) (robots : Bool) (o : SessionResult)
    (guessExts : String → List String) (v t file_name url fp bp dfe : String) :
    Except PyErr Unit × FS × List SpawnedChild :=
  match (if strEndsWith ".css" file_name = false then
           download_file cfg fs robots o guessExts v t url fp dfe
         else (Except.ok (), fs)) with
  | (Except.error e, fs2) => (Except.error e, fs2, [])
  | (Except.ok _, fs2) =>
    match get robots 0 o with
    | Except.error e => (Except.error e, fs2, [])
    | Except.ok (req, _) =>
      if req.ok = false then (Except.ok (), fs2, [])
      else
        match cssUrlSubstF (repl cfg bp url fp) req.body.data.length req.body.data with
        | (c1, k1) =>
          match cssImportSubstF (repl cfg bp url fp) c1.data.length c1.data with
          | (c2, k2) =>
            match write_file cfg fs2 v t url fp c2 with
            | (r, fs3) => (r, fs3, k1 ++ k2)

/-! ### Event model of repl's thread interaction (elements.py 288-295)

`LinkTag.repl` runs `new_element.start()` and then immediately computes
the replacement from the already-known file paths; there is no `join`
(the wait loop in `extract_css_urls`, elements.py lines 312-316, is
commented out).  The step relation below is the control skeleton: the
parent may move from `spawned` to `rewritten` regardless of the child's
phase — a blocking implementation would require the child to be
`terminal` in the `rewrite` rule. -/

/-- Phases of the parent stylesheet's processing of one reference. -/
inductive ParentPhase where
  | beforeSpawn
  | spawned
  | rewritten
  | parentWritten
deriving DecidableEq, Repr

/-- Phases of the spawned child thread. -/
inductive ChildPhase where
  | notStarted
  | started
  | terminal
deriving DecidableEq, Repr

/-- Combined state of the parent's replacement call and the child
thread it spawns. -/
structure ReplState where
  parent : ParentPhase
  child : ChildPhase
deriving DecidableEq, Repr

/-- Interleaved steps of `repl` and the child thread, following the
statement order of elements.py lines 288-295. -/
inductive ReplStep : ReplState → ReplState → Prop
  | spawn :
      ReplStep { parent := ParentPhase.beforeSpawn, child := ChildPhase.notStarted }
        { parent := ParentPhase.spawned, child := ChildPhase.started }
  | rewrite (c : ChildPhase) :
      ReplStep { parent := ParentPhase.spawned, child := c }
        { parent := ParentPhase.rewritten, child := c }
  | parentWrite (c : ChildPhase) :
      ReplStep { parent := ParentPhase.rewritten, child := c }
        { parent := ParentPhase.parentWritten, child := c }
  | childFinish (p : ParentPhase) :
      ReplStep { parent := p, child := ChildPhase.started }
        { parent := p, child := ChildPhase.terminal }

/-- States reachable from the initial state. -/
def ReplReachable (s : ReplState) : Prop :=
  Relation.ReflTransGen ReplStep
    { parent := ParentPhase.beforeSpawn, child := ChildPhase.notStarted } s

/-! ### Spec-side definition for the data-URI comparison -/

/-- Follows the spec's words, not the source: a data URI is a reference
whose URL scheme is `data`, i.e. the URL starts with the five
characters `data:`.  Used to compare the source's prefix test against
the spec. -/
def specDataURI (u : String) : Bool := decide (strTake 5 u = "data:")

/-! ### Concrete sample values used by witnesses and counterexamples -/

/-- A sample configuration with a small allow-list and overwrite
disabled. -/
def cfgSample : Config :=
  { allowed_file_ext := [".css", ".png", ".html"]
  , over_write := false
  , project_folder := "proj" }

/-- The sample configuration with overwrite enabled. -/
def cfgOverwrite : Config :=
  { allowed_file_ext := [".css", ".png", ".html"]
  , over_write := true
  , project_folder := "proj" }

/-- A successful html response. -/
def sampleResp : Resp :=
  { body := "page-content"
  , statusCode := 200
  , contentLength := 12
  , contentType := "text/html"
  , isDummy := false
  , reason := "OK" }

/-- An HTTP error-status response returned without a raised exception. -/
def resp404 : Resp :=
  { body := "Not Found"
  , statusCode := 404
  , contentLength := 9
  , contentType := "text/html"
  , isDummy := false
  , reason := "Not Found" }

/-- A successful css response whose body references one asset. -/
def respCss : Resp :=
  { body := "url(icon.png)"
  , statusCode := 200
  , contentLength := 13
  , contentType := "text/css"
  , isDummy := false
  , reason := "OK" }

/-- A mimetypes table that guesses no extensions. -/
def noGuess : String → List String := fun _ => []

/-! ## Helper lemmas about the filesystem model -/

/-- Writing a file makes it exist. -/
theorem fileExists_write_self (fs : FS) (p c : String) :
    fileExists (fsWrite fs p c) p = true := by
  simp [fileExists, fsWrite]

/-- Writing one file never removes another. -/
theorem fileExists_write_keep (fs : FS) (p c q : String) (h : fileExists fs q = true) :
    fileExists (fsWrite fs p c) q = true := by
  by_cases hpq : p = q
  · subst hpq; exact fileExists_write_self fs p c
  · unfold fileExists at h ⊢
    unfold fsWrite
    rcases List.any_eq_true.mp h with ⟨e, he, hpe⟩
    refine List.any_eq_true.mpr ⟨e, List.mem_cons_of_mem _ (List.mem_filter.mpr ⟨he, ?_⟩), hpe⟩
    have he1 : e.1 = q := by simpa using hpe
    simp only [he1, bne_iff_ne, ne_eq]
    exact fun hq => hpq hq.symm

/-- Looking up a freshly written path returns its new content. -/
theorem fsLookup_write (fs : FS) (p c : String) :
    fsLookup (fsWrite fs p c) p = some c := by
  unfold fsLookup fsWrite
  rw [List.find?_cons_of_pos _ (by simp)]
  rfl

/-- `download_file` never deletes a file: whatever path existed before
still exists after, for every configuration and request outcome. -/
theorem download_file_keeps_files (cfg : Config) (fs : FS) (robots : Bool) (o : SessionResult)
    (guessExts : String → List String) (v t url fp dfe q : String)
    (h : fileExists fs q = true) :
    fileExists (download_file cfg fs robots o guessExts v t url fp dfe).2 q = true := by
  unfold download_file
  repeat' split
  all_goals first
    | exact h
    | exact fileExists_write_keep _ _ _ _ h

/-- The extension gate rules out the empty path: an allowed extension
of `splitextExt fp` forces `fp` to be nonempty. -/
theorem is_allowed_splitext_ne_empty (cfg : Config) (fp : String)
    (h : is_allowed cfg (splitextExt fp) = true) : fp ≠ "" := by
  intro hEq
  rw [hEq] at h
  have h0 : splitextExt "" = "" := by decide
  rw [h0] at h
  simp [is_allowed] at h

/-- `write_file` leaves the target existing whenever its extension is
allowed: either the file was already there and was skipped, or it got
written. -/
theorem write_file_target_exists (cfg : Config) (fs : FS) (v t url fp contents : String)
    (hext : is_allowed cfg (splitextExt fp) = true) :
    fileExists (write_file cfg fs v t url fp contents).2 fp = true := by
  have hfp : fp ≠ "" := is_allowed_splitext_ne_empty cfg fp hext
  unfold write_file
  by_cases h : fileExists fs fp = true ∧ cfg.over_write = false
  · simp only [hfp, if_neg (by simpa using hfp), if_pos h]
    exact h.1
  · simp only [if_neg (by simpa using hfp), if_neg h, hext]
    simp [fileExists_write_self]

/-! ## Claim C1 -/

/-- Claim C1: when the request raises an `HTTPError` or a
`ConnectionError`, `get` does not propagate the exception: it returns a
`Response`, and on a connection failure that response is exactly the
synthetic placeholder — fixed plain-text payload, tagged `is_dummy`. -/
theorem get_transport_failsafe (robots : Bool) (dsz : Nat) :
    (∀ respOpt : Option Resp,
      ∃ r sz, get robots dsz (SessionResult.raiseHTTPError respOpt) = Except.ok (r, sz)) ∧
    get robots dsz SessionResult.raiseConnectionError = Except.ok (dummy_resp, dsz) ∧
    dummy_resp.isDummy = true ∧
    dummy_resp.body =
      "This File could not be downloaded because the server returned an error response!" := by
  refine ⟨?_, rfl, rfl, rfl⟩
  intro respOpt
  cases respOpt with
  | none => exact ⟨dummy_resp, dsz, rfl⟩
  | some r =>
    by_cases h : r.ok = true
    · exact ⟨r, dsz, by simp [get, h]⟩
    · exact ⟨dummy_resp, dsz, by simp [get, h]⟩

/-! ## Claim C4 -/

/-- Claim C4 (the code, at the failing input): `get` never consults the
robots.txt oracle — its result is independent of the oracle's verdict —
and on a denied URL whose transport succeeds it returns the genuine
server response, not the placeholder, so a denial is not treated as a
transport failure.  The robots check exists only as a comment in the
source (core.py lines 99-100). -/
theorem get_robots_not_consulted :
    (∀ (a b : Bool) (dsz : Nat) (s : SessionResult), get a dsz s = get b dsz s) ∧
    get false 0 (SessionResult.success sampleResp)
      = Except.ok (sampleResp, sampleResp.contentLength) ∧
    sampleResp.isDummy = false := by
  refine ⟨fun a b dsz s => rfl, rfl, rfl⟩

/-! ## Claim C10 -/

/-- Claim C10: calling `new_file` with byte content but no
`content_url` raises `AssertionError`, because
`isinstance(content_url, str)` is asserted unconditionally; the
content-only form of the documented either/or interface is never
accepted. -/
theorem new_file_content_only_asserts (cfg : Config) (fs : FS) (robots : Bool)
    (o : SessionResult) (v t location c : String)
    (hl : location ≠ "") (hc : c ≠ "") :
    new_file cfg fs robots o v t location none (some c)
      = (Except.error (PyErr.assertionError "File url must be a string!"), fs) := by
  simp [new_file, hl, hc]

/-- Witness for C10 at a concrete call. -/
theorem new_file_content_only_asserts_witness :
    new_file cfgSample [] true (SessionResult.success sampleResp) "1.0" "TS" "a.css"
        none (some "NEW")
      = (Except.error (PyErr.assertionError "File url must be a string!"), []) :=
  new_file_content_only_asserts cfgSample [] true (SessionResult.success sampleResp)
    "1.0" "TS" "a.css" "NEW" (by decide) (by decide)

/-! ## Claim C8 -/

/-- Claim C8 (the code, at the failing input): for a resource whose
URL-implied extension `.dat` is disallowed and whose `default_fileext`
is set (`js`, as `ScriptTag` sets it), the content-type fallback does
not complete: `file_exts.extends(...)` raises `AttributeError` (Python
lists have `extend`, not `extends`), the error propagates, and no file
is written. -/
theorem download_file_extends_attribute_error :
    download_file cfgSample [] true (SessionResult.success sampleResp) noGuess "1.0" "TS"
        "http://e.com/lib.dat" "proj/e.com/lib.dat" "js"
      = (Except.error (PyErr.attributeError "list object has no attribute extends"), []) := by
  rfl

/-! ## Claim C6 -/

/-- Counterexample to C6: the reference `database.css` is not a
`data:` URI, yet `repl` returns it verbatim and mints no child —
because the source tests `url[:4] == b'data'`, a prefix of the bytes,
not the URL scheme. -/
theorem repl_data_prefix_counter :
    repl cfgSample "proj" "http://e.com/style.css" "proj/e.com/style.css" "database.css"
      = ("database.css", none) ∧
    specDataURI "database.css" = false := by
  exact ⟨rfl, rfl⟩

/-- Claim C6 (amended): a reference whose first four bytes are `data`
(and only such a reference) is returned verbatim with no child minted;
every other reference is replaced by `url(<relativePath>)`, the
relative path computed between the child's mapped file and the parent
stylesheet's file, and a child is minted (a stylesheet child exactly
when the URL ends in `.css`). -/
theorem repl_data_and_rewrite (cfg : Config) (bp su sfp u : String) :
    (strTake 4 u = "data" → repl cfg bp su sfp u = (u, none)) ∧
    (strTake 4 u ≠ "data" →
      repl cfg bp su sfp u =
        ("url(" ++
          pathname2url (relate (file_path_map u su (if bp = "" then cfg.project_folder else bp))
            sfp) ++ ")",
        some { url := u
             , isCss := strEndsWith ".css" u
             , file_path := file_path_map u su (if bp = "" then cfg.project_folder else bp) })) := by
  constructor
  · intro h; simp [repl, h]
  · intro h; simp [repl, h]

/-- Witness for C6 at a concrete non-data reference. -/
theorem repl_data_and_rewrite_witness :
    repl cfgSample "proj" "http://e.com/style.css" "proj/e.com/style.css" "icon.png"
      = ("url(./icon.png)",
        some { url := "icon.png", isCss := false, file_path := "proj/e.com/icon.png" }) := by
  have h := (repl_data_and_rewrite cfgSample "proj" "http://e.com/style.css"
    "proj/e.com/style.css" "icon.png").2 (by decide)
  exact h.trans (by rfl)

/-! ## Claim C3 -/

/-- Counterexample to C3: the schedule spawn-then-rewrite is a valid
execution of `repl` — the parent's rewrite is reached while the child
is still merely started, not in a terminal state, so the replacement
call does not block on the child's completion. -/
theorem repl_rewrite_before_child_terminal :
    ReplReachable { parent := ParentPhase.rewritten, child := ChildPhase.started } ∧
    ChildPhase.started ≠ ChildPhase.terminal := by
  constructor
  · exact Relation.ReflTransGen.tail
      (Relation.ReflTransGen.tail Relation.ReflTransGen.refl ReplStep.spawn)
      (ReplStep.rewrite ChildPhase.started)
  · decide

/-- Claim C3 (amended): the replacement call does not wait for the
child: it computes the rewritten reference solely from the child's
eagerly derived file path, and a state in which the parent has
rewritten the reference while the child is not yet terminal is
reachable. -/
theorem repl_nonblocking_rewrite (cfg : Config) (bp su sfp u : String)
    (h : strTake 4 u ≠ "data") :
    (repl cfg bp su sfp u).1 =
      "url(" ++
        pathname2url (relate (file_path_map u su (if bp = "" then cfg.project_folder else bp))
          sfp) ++ ")" ∧
    ReplReachable { parent := ParentPhase.rewritten, child := ChildPhase.started } := by
  constructor
  · simp [repl, h]
  · exact Relation.ReflTransGen.tail
      (Relation.ReflTransGen.tail Relation.ReflTransGen.refl ReplStep.spawn)
      (ReplStep.rewrite ChildPhase.started)

/-- Witness for C3 at a concrete reference. -/
theorem repl_nonblocking_rewrite_witness :
    (repl cfgSample "proj" "http://e.com/style.css" "proj/e.com/style.css" "icon.png").1
      = "url(./icon.png)" ∧
    ReplReachable { parent := ParentPhase.rewritten, child := ChildPhase.started } := by
  have h := repl_nonblocking_rewrite cfgSample "proj" "http://e.com/style.css"
    "proj/e.com/style.css" "icon.png" (by decide)
  exact ⟨h.1.trans (by rfl), h.2⟩

/-! ## Claim C5 -/

/-- Counterexample to C5: the file at `a.dat` exists and overwrite is
disabled, yet `new_file` returns `None` instead of the existing path —
the extension gate runs before the overwrite logic, so a location with
a disallowed extension never reaches the skip-and-return-path branch. -/
theorem new_file_existing_disallowed_counter :
    (new_file cfgSample [("a.dat", "OLD")] true (SessionResult.success sampleResp) "1.0" "TS"
        "a.dat" (some "http://x/a.dat") (some "NEW")).1 = Except.ok none ∧
    fileExists [("a.dat", "OLD")] "a.dat" = true ∧
    cfgSample.over_write = false ∧
    (new_file cfgSample [("a.dat", "OLD")] true (SessionResult.success sampleResp) "1.0" "TS"
        "a.dat" (some "http://x/a.dat") (some "NEW")).1 ≠ Except.ok (some "a.dat") := by
  refine ⟨rfl, rfl, rfl, by decide⟩

/-- Claim C5 (amended): for a location whose file exists and whose
extension passes the allow-list: with overwrite disabled `new_file`
performs no write and returns the existing path as a non-error result;
with overwrite enabled it removes the existing file first and, when
byte content is supplied, replaces the file's content. -/
theorem new_file_overwrite_policy (cfg : Config) (fs : FS) (robots : Bool) (o : SessionResult)
    (v t location curl c ext : String)
    (hx : newFileExt location = some ext)
    (ha : is_allowed cfg ext = true)
    (he : fileExists fs location = true)
    (hc : c ≠ "") :
    (cfg.over_write = false →
      new_file cfg fs robots o v t location (some curl) (some c)
        = (Except.ok (some location), fs)) ∧
    (cfg.over_write = true →
      (new_file cfg fs robots o v t location (some curl) (some c)).1
          = Except.ok (some location) ∧
      fsLookup (new_file cfg fs robots o v t location (some curl) (some c)).2 location
        = some (c ++ watermark v t (if curl = "" then location else curl))) := by
  have hl : location ≠ "" := by
    intro hEq
    rw [hEq] at hx
    rw [(by decide : newFileExt "" = none)] at hx
    exact Option.noConfusion hx
  constructor
  · intro how
    simp [new_file, hl, hc, hx, ha, he, how]
  · intro how
    refine ⟨?_, ?_⟩
    · simp [new_file, new_file_write, hl, hc, hx, ha, he, how]
    · simp [new_file, new_file_write, hl, hc, hx, ha, he, how, fsLookup_write]

/-- Witness for C5 on both overwrite settings, at a concrete location
with existing file and allowed extension. -/
theorem new_file_overwrite_policy_witness :
    new_file cfgSample [("s.css", "OLD")] true (SessionResult.success sampleResp) "1.0" "TS"
        "s.css" (some "http://x/s.css") (some "NEW")
      = (Except.ok (some "s.css"), [("s.css", "OLD")]) ∧
    fsLookup (new_file cfgOverwrite [("s.css", "OLD")] true (SessionResult.success sampleResp)
        "1.0" "TS" "s.css" (some "http://x/s.css") (some "NEW")).2 "s.css"
      = some ("NEW" ++ watermark "1.0" "TS" "http://x/s.css") := by
  constructor
  · exact (new_file_overwrite_policy cfgSample [("s.css", "OLD")] true
      (SessionResult.success sampleResp) "1.0" "TS" "s.css" "http://x/s.css" "NEW" ".css"
      (by decide) (by decide) (by decide) (by decide)).1 rfl
  · have h := (new_file_overwrite_policy cfgOverwrite [("s.css", "OLD")] true
      (SessionResult.success sampleResp) "1.0" "TS" "s.css" "http://x/s.css" "NEW" ".css"
      (by decide) (by decide) (by decide) (by decide)).2 rfl
    exact h.2.trans (by decide)

/-! ## Claim C7 -/

/-- Counterexample to C7: `new_file` writes the file `a.css` — whose
extension is `.css`, for which the claim demands a block-comment
watermark — with no bytes appended after the content, because the
watermark is keyed on `content_url or location` and the supplied
content URL `http://example.com/a` has no extension. -/
theorem watermark_source_key_counter :
    fsLookup (new_file cfgSample [] true (SessionResult.success sampleResp) "1.0" "TS"
        "a.css" (some "http://example.com/a") (some "BODY")).2 "a.css" = some "BODY" ∧
    strLower (splitextExt "a.css") ∈ blockExts ∧
    watermark "1.0" "TS" "a.css" ≠ "" := by
  refine ⟨rfl, by decide, by decide⟩

/-- Claim C7 (amended): the bytes appended after the content are
exactly the watermark keyed on the extension of the source URL when one
is supplied (else the written location): the markup-comment form for
`.html/.htm/.xhtml/.asp/.aspx/.php`, the block-comment form for
`.css/.js/.xml`, and nothing for any other extension. -/
theorem watermark_trichotomy_and_key (v t p : String) :
    (strLower (splitextExt p) ∈ markupExts →
      watermark v t p = MARK_format "<!--!" v p t "-->") ∧
    (strLower (splitextExt p) ∈ blockExts →
      watermark v t p = MARK_format "/*!" v p t "*/") ∧
    (strLower (splitextExt p) ∉ markupExts → strLower (splitextExt p) ∉ blockExts →
      watermark v t p = "") ∧
    (∀ (cfg : Config) (fs : FS) (robots : Bool) (o : SessionResult) (location curl c ext : String),
      newFileExt location = some ext → is_allowed cfg ext = true →
      fileExists fs location = false → c ≠ "" → curl ≠ "" →
      fsLookup (new_file cfg fs robots o v t location (some curl) (some c)).2 location
        = some (c ++ watermark v t curl)) := by
  refine ⟨?_, ?_, ?_, ?_⟩
  · intro h; simp [watermark, h]
  · intro h
    have hdisj : ∀ x ∈ blockExts, x ∉ markupExts := by decide
    simp [watermark, h, hdisj _ h]
  · intro h1 h2; simp [watermark, h1, h2]
  · intro cfg fs robots o location curl c ext hx ha hfe hc hcurl
    have hl : location ≠ "" := by
      intro hEq
      rw [hEq] at hx
      rw [(by decide : newFileExt "" = none)] at hx
      exact Option.noConfusion hx
    simp [new_file, new_file_write, hl, hc, hx, ha, hfe, hcurl, fsLookup_write]

/-- Witness for C7: a `.css`-keyed path gets the block-comment
watermark, and a concrete `new_file` call appends the watermark keyed on
its content URL. -/
theorem watermark_trichotomy_and_key_witness :
    watermark "1.0" "TS" "s.css" = MARK_format "/*!" "1.0" "s.css" "TS" "*/" ∧
    fsLookup (new_file cfgSample [] true (SessionResult.success sampleResp) "1.0" "TS"
        "b.css" (some "http://x/b.css") (some "NEW")).2 "b.css"
      = some ("NEW" ++ watermark "1.0" "TS" "http://x/b.css") := by
  constructor
  · exact (watermark_trichotomy_and_key "1.0" "TS" "s.css").2.1 (by decide)
  · exact (watermark_trichotomy_and_key "1.0" "TS" "s.css").2.2.2 cfgSample [] true
      (SessionResult.success sampleResp) "b.css" "http://x/b.css" "NEW" ".css"
      (by decide) (by decide) (by decide) (by decide) (by decide)

/-! ## Claim C2 -/

/-- Counterexample to C2: a fetch that returns an HTTP error status
(404, a transport failure per the spec's taxonomy) without raising
leaves the filesystem untouched — no file, placeholder or otherwise, is
produced at the resource's mapped path, although its `.png` extension
is allowed.  The reference rewritten for this resource dangles. -/
theorem http_error_status_writes_nothing :
    download_file cfgSample [] true (SessionResult.success resp404) noGuess "1.0" "TS"
        "http://e.com/icon.png" "proj/e.com/icon.png" "" = (Except.ok (), []) ∧
    fileExists [] "proj/e.com/icon.png" = false ∧
    is_allowed cfgSample ".png" = true ∧
    resp404.ok = false := by
  exact ⟨rfl, rfl, rfl, rfl⟩

/-- Claim C2 (amended): a child resource whose fetch raises a
connection failure still yields a file at its mapped path holding the
placeholder payload (its extension being allowed); the parent
stylesheet's own file is written by its run regardless of any child's
outcome; and no later child download — whatever its outcome — removes
the parent's file.  (A fetch returning an error-status response without
raising writes nothing, per the counterexample.) -/
theorem failsafe_placeholder_and_parent (cfg : Config) (fs cfs : FS) (robots : Bool)
    (guessExts : String → List String) (v t purl pfp bp pfn pdfe curl cfp cdfe : String)
    (pr : Resp)
    (hcss : strEndsWith ".css" pfn = true)
    (hok : pr.ok = true)
    (hpext : is_allowed cfg (splitextExt pfp) = true)
    (hcne : fileExists cfs cfp = false)
    (hcext : is_allowed cfg (splitextExt cfp) = true) :
    fsLookup (download_file cfg cfs robots SessionResult.raiseConnectionError guessExts
        v t curl cfp cdfe).2 cfp
      = some (dummy_resp.body ++ watermark v t curl) ∧
    fileExists (linkTagRun cfg fs robots (SessionResult.success pr) guessExts
        v t pfn purl pfp bp pdfe).2.1 pfp = true ∧
    (∀ (fs2 : FS) (o : SessionResult) (u2 fp2 d2 : String),
      fileExists fs2 pfp = true →
      fileExists (download_file cfg fs2 robots o guessExts v t u2 fp2 d2).2 pfp = true) := by
  have hcfp : cfp ≠ "" := is_allowed_splitext_ne_empty cfg cfp hcext
  refine ⟨?_, ?_, ?_⟩
  · simp [download_file, hcfp, hcne, hcext, get, dummy_resp, Resp.ok, fsLookup_write]
  · have hrun : (linkTagRun cfg fs robots (SessionResult.success pr) guessExts
        v t pfn purl pfp bp pdfe).2.1
        = (write_file cfg fs v t purl pfp
            (cssImportSubstF (repl cfg bp purl pfp)
              (cssUrlSubstF (repl cfg bp purl pfp) pr.body.data.length pr.body.data).1.data.length
              (cssUrlSubstF (repl cfg bp purl pfp) pr.body.data.length pr.body.data).1.data).1).2 := by
      simp [linkTagRun, hcss, get, hok]
    rw [hrun]
    exact write_file_target_exists cfg fs v t purl pfp _ hpext
  · intro fs2 o u2 fp2 d2 h
    exact download_file_keeps_files cfg fs2 robots o guessExts v t u2 fp2 d2 pfp h

/-- Witness for C2 at a concrete stylesheet with one referenced asset. -/
theorem failsafe_placeholder_and_parent_witness :
    fsLookup (download_file cfgSample [] true SessionResult.raiseConnectionError noGuess
        "1.0" "TS" "http://e.com/icon.png" "proj/e.com/icon.png" "").2 "proj/e.com/icon.png"
      = some (dummy_resp.body ++ watermark "1.0" "TS" "http://e.com/icon.png") ∧
    fileExists (linkTagRun cfgSample [] true (SessionResult.success respCss) noGuess
        "1.0" "TS" "style.css" "http://e.com/style.css" "proj/e.com/style.css" "proj" "").2.1
      "proj/e.com/style.css" = true := by
  have h := failsafe_placeholder_and_parent cfgSample [] [] true noGuess "1.0" "TS"
    "http://e.com/style.css" "proj/e.com/style.css" "proj" "style.css" ""
    "http://e.com/icon.png" "proj/e.com/icon.png" "" respCss
    (by decide) (by decide) (by decide) (by decide) (by decide)
  exact ⟨h.1, h.2.1⟩

/-! ## Claim C9 -/

/-- Claim C9: `is_allowed` returns true exactly when the trimmed,
lower-cased extension is in the configured allow-list (given that the
empty string is not itself on the allow-list); the empty extension
returns false; and the memoised lookup agrees with the pure function on
a coherent cache while the cache size never exceeds the fixed
`lru_cache` bound of 100. -/
theorem is_allowed_cached_spec (cfg : Config) (c : LruCache) (ext : String)
    (hco : Coherent cfg c) (hni : "" ∉ cfg.allowed_file_ext) :
    (cached_is_allowed cfg c ext).1 = is_allowed cfg ext ∧
    ((cached_is_allowed cfg c ext).2).length ≤ lruMaxsize ∧
    (is_allowed cfg ext = true ↔ strLower (strTrim ext) ∈ cfg.allowed_file_ext) ∧
    is_allowed cfg "" = false := by
  have hlen : ∀ l : List (String × Bool), (l.take lruMaxsize).length ≤ lruMaxsize := by
    intro l
    rw [List.length_take]
    exact min_le_left _ _
  refine ⟨?_, ?_, ?_, rfl⟩
  · cases hf : c.find? (fun e => e.1 == ext) with
    | none => simp [cached_is_allowed, hf]
    | some e =>
      have hmem := List.mem_of_find?_eq_some hf
      have hpred : e.1 = ext := by
        have := List.find?_some hf
        simpa using this
      have hval := hco e hmem
      simp [cached_is_allowed, hf, hval, hpred]
  · cases hf : c.find? (fun e => e.1 == ext) with
    | none => simp only [cached_is_allowed, hf]; exact hlen _
    | some e => simp only [cached_is_allowed, hf]; exact hlen _
  · constructor
    · intro h
      by_cases hx : ext = ""
      · rw [hx] at h
        simp [is_allowed] at h
      · simp only [is_allowed, if_neg hx] at h
        by_cases hm : strLower (strTrim ext) ∈ cfg.allowed_file_ext
        · exact hm
        · rw [if_neg hm] at h
          exact absurd h (by decide)
    · intro hm
      have hx : ext ≠ "" := by
        intro hEq
        rw [hEq] at hm
        rw [(by decide : strLower (strTrim "") = "")] at hm
        exact hni hm
      simp [is_allowed, hx, hm]

/-- Witness for C9 on the empty cache and a concrete extension. -/
theorem is_allowed_cached_spec_witness :
    (cached_is_allowed cfgSample [] ".css").1 = is_allowed cfgSample ".css" ∧
    ((cached_is_allowed cfgSample [] ".css").2).length ≤ lruMaxsize ∧
    (is_allowed cfgSample ".css" = true ↔
      strLower (strTrim ".css") ∈ cfgSample.allowed_file_ext) ∧
    is_allowed cfgSample "" = false := by
  exact is_allowed_cached_spec cfgSample [] ".css"
    (by intro e he; exact absurd he (List.not_mem_nil e)) (by decide)

end PyWebCopy
